import Mathlib

/-!
Verification of the student-records CRUD service.

The repository contains three route files (one named `index.js`, two with
unknown names).  We embed the record store, the validators and the route
handlers of each variant shallowly: JavaScript values that can reach the
store are modelled by `JSValue`, records by structures whose fields are
`JSValue`s, and each Express handler by a pure function that takes the
current store (and identifier counter where relevant) and returns the new
store together with a typed outcome.
-/

/-- A JavaScript value as it can appear in a JSON request body or in a
stored record: a finite number (modelled exactly by a rational), `NaN`,
a string, a boolean, or `null`.  `undefined` is represented by `Option`
at the lookup sites, as request bodies parsed from JSON never contain
`undefined` values. -/
inductive JSValue where
  | num (q : ℚ)
  | nan
  | str (s : String)
  | bool (b : Bool)
  | null
deriving DecidableEq, Repr

namespace JSValue

/-- JavaScript truthiness of a value (`!v` in the source is `!(truthy v)`). -/
def truthy : JSValue → Bool
  | num q => q != 0
  | nan => false
  | str s => s != ""
  | bool b => b
  | null => false

/-- `typeof v === 'number'` — true for finite numbers and for `NaN`. -/
def typeofNumber : JSValue → Bool
  | num _ => true
  | nan => true
  | _ => false

/-- Strict equality `===` between two values (`NaN === NaN` is false). -/
def strictEq : JSValue → JSValue → Bool
  | num a, num b => a == b
  | str a, str b => a == b
  | bool a, bool b => a == b
  | null, null => true
  | _, _ => false

end JSValue

/-- The longest leading run of decimal digits of a character list, as a
number, together with a flag telling whether at least one digit was seen. -/
def leadingDigits : List Char → Option ℕ
  | cs =>
    let ds := cs.takeWhile Char.isDigit
    if ds.isEmpty then none
    else some (ds.foldl (fun acc c => 10 * acc + (c.toNat - '0'.toNat)) 0)

/-- Model of JavaScript `parseInt(s, 10)`: skip leading whitespace, accept an
optional sign, then read the longest digit run; `none` models `NaN`. -/
def jsParseInt (s : String) : Option ℤ :=
  let cs := s.data.dropWhile (fun c => c == ' ' || c == '\t' || c == '\n' || c == '\r')
  match cs with
  | '-' :: rest => (leadingDigits rest).map (fun n => -(n : ℤ))
  | '+' :: rest => (leadingDigits rest).map (fun n => (n : ℤ))
  | _ => (leadingDigits cs).map (fun n => (n : ℤ))

/-- Parse a complete decimal literal `digits[.digits]` (after the sign) into
a rational; `none` when the characters are not exactly such a literal. -/
def decimalLit : List Char → Option ℚ
  | cs =>
    let intPart := cs.takeWhile Char.isDigit
    let rest := cs.dropWhile Char.isDigit
    match rest with
    | [] =>
      if intPart.isEmpty then none
      else (leadingDigits intPart).map (fun n => (n : ℚ))
    | '.' :: frac =>
      if frac.all Char.isDigit ∧ ¬ (intPart.isEmpty ∧ frac.isEmpty) then
        let ip : ℕ := ((leadingDigits intPart).getD 0)
        let fp : ℕ := ((leadingDigits frac).getD 0)
        some (mkRat (ip * 10 ^ frac.length + fp) (10 ^ frac.length))
      else none
    | _ => none

/-- Whitespace as skipped by the JavaScript string-trimming operations
(the ASCII cases, which cover every string this service handles). -/
def isJsWs (c : Char) : Bool :=
  c == ' ' || c == '\t' || c == '\n' || c == '\r'

/-- `s.trim()`: the string with leading and trailing whitespace removed. -/
def jsTrim (s : String) : String :=
  ⟨(((s.data.dropWhile isJsWs).reverse.dropWhile isJsWs).reverse)⟩

/-- Model of JavaScript `ToNumber` on a string (as used by `Number(s)`):
the trimmed empty string is `0`, a signed decimal literal is its value,
anything else is `NaN` (`none`). -/
def jsStrToNumber (s : String) : Option ℚ :=
  let t := jsTrim s
  if t = "" then some 0
  else
    match t.data with
    | '-' :: rest => (decimalLit rest).map (fun q => -q)
    | '+' :: rest => decimalLit rest
    | cs => decimalLit cs

namespace JSValue

/-- Model of `Number(v)`: the JavaScript `ToNumber` coercion.  The result is
always a number, so it is `num` or `nan`. -/
def toNumber : JSValue → JSValue
  | num q => num q
  | nan => nan
  | str s => match jsStrToNumber s with
    | some q => num q
    | none => nan
  | bool b => num (if b then 1 else 0)
  | null => num 0

/-- `a < b` where at least one operand is a number, so the JavaScript
abstract relational comparison takes the numeric path: both sides go
through `ToNumber`, and any `NaN` makes the comparison false. -/
def ltNum (a b : JSValue) : Bool :=
  match a.toNumber, b.toNumber with
  | num x, num y => x < y
  | _, _ => false

/-- `a <= b` on the numeric path (false when either side is `NaN`). -/
def leNum (a b : JSValue) : Bool :=
  match a.toNumber, b.toNumber with
  | num x, num y => x ≤ y
  | _, _ => false

/-- `a > b` on the numeric path. -/
def gtNum (a b : JSValue) : Bool := ltNum b a

/-- `a >= b` on the numeric path. -/
def geNum (a b : JSValue) : Bool := leNum b a

end JSValue

/-- A parsed JSON request body: keys with their values, in document order. -/
abbrev Payload := List (String × JSValue)

/-- Destructuring a field out of a body: `none` models `undefined`. -/
def getField (u : Payload) (k : String) : Option JSValue := u.lookup k

/-- Truthiness of a possibly-absent value (`undefined` is falsy). -/
def truthyOpt (o : Option JSValue) : Bool :=
  match o with
  | some v => v.truthy
  | none => false

/-- `x || d` applied to a possibly-absent value: the value when truthy,
otherwise the default. -/
def jsOrDefault (o : Option JSValue) (d : JSValue) : JSValue :=
  match o with
  | some v => if v.truthy then v else d
  | none => d

/-- The typed outcomes the handlers return, one per distinct error response
in the source.  `missingFields` is the 400 for missing required fields,
`invalidGpa`/`invalidAge`/`emptyName`/`invalidIndexFormat` are the 400
validation responses, `conflictIndex` the 409, `notFound` the 404,
`invalidId` the 400 for a malformed `:id` parameter, and `internal` the
500 produced when a handler throws (e.g. `.trim()` on a non-string). -/
inductive Err where
  | missingFields
  | invalidGpa
  | invalidAge
  | emptyName
  | invalidIndexFormat
  | conflictIndex
  | notFound
  | invalidId
  | internal
deriving DecidableEq, Repr

/-- A record of the `index.js` variant (no `indexNumber` field). -/
structure StudentI where
  id : JSValue
  name : JSValue
  major : JSValue
  age : JSValue
  gpa : JSValue
  email : JSValue
  enrollmentDate : JSValue
deriving DecidableEq, Repr

/-- The seed collection of `index.js` (lines 9–15). -/
def seedStudentsI : List StudentI :=
  [ ⟨.num 101, .str "Alice Smith", .str "Computer Science", .num 20, .num (mkRat 19 5),
      .str "alice@example.com", .str "2023-09-01"⟩,
    ⟨.num 102, .str "Bob Johnson", .str "Mechanical Engineering", .num 21, .num (mkRat 16 5),
      .str "bob@example.com", .str "2022-09-01"⟩,
    ⟨.num 103, .str "Charlie Brown", .str "History", .num 19, .num (mkRat 29 10),
      .str "charlie@example.com", .str "2023-01-15"⟩,
    ⟨.num 104, .str "Dana Scully", .str "Biology", .num 22, .num (mkRat 79 20),
      .str "dana@example.com", .str "2021-09-01"⟩,
    ⟨.num 105, .str "Evan Peters", .str "Fine Arts", .num 20, .num (mkRat 7 2),
      .str "evan@example.com", .str "2023-09-01"⟩ ]

/-- `isValidGpa` of `index.js` (lines 22–25):
`typeof g === 'number' && g >= 0.0 && g <= 4.0`. -/
def isValidGpa (g : JSValue) : Bool :=
  g.typeofNumber && g.geNum (.num 0) && g.leNum (.num 4)

/-- The value `parseInt(id, 10)` as a `JSValue` (`NaN` when unparseable),
used as the right operand of the strict comparison in `findStudentById`. -/
def idTarget (idStr : String) : JSValue :=
  match jsParseInt idStr with
  | some n => .num n
  | none => .nan

/-- Index of the first record matching `findStudentById` of `index.js`
(lines 27–29): `students.find(s => s.id === parseInt(id, 10))`. -/
def findStudentIdxI (store : List StudentI) (idStr : String) : Option ℕ :=
  store.findIdx? (fun s => s.id.strictEq (idTarget idStr))

/-- `GET /studentrecords/:id` of `index.js` (lines 90–97): the record found
by `findStudentById`, else the 404 outcome. -/
def getByIdIdx (store : List StudentI) (idStr : String) : Except Err StudentI :=
  match store.find? (fun s => s.id.strictEq (idTarget idStr)) with
  | some s => .ok s
  | none => .error .notFound

/-- The age check of the `index.js` create handler (lines 112–114): the
request is rejected iff
`age !== undefined && age !== null && (typeof age !== 'number' || age < 16)`. -/
def ageCheckFailsIdx (o : Option JSValue) : Bool :=
  match o with
  | none => false
  | some .null => false
  | some v => !v.typeofNumber || v.ltNum (.num 16)

/-- `POST /studentrecords` of `index.js` (lines 101–132).  Takes the store,
the identifier counter and the parsed body; `today` stands for
`new Date().toISOString().split('T')[0]`.  Returns the new store, the new
counter and the outcome (the created record on success). -/
def createIdx (store : List StudentI) (nextId : ℤ) (body : Payload) (today : String) :
    List StudentI × ℤ × Except Err StudentI :=
  let name := getField body "name"
  let major := getField body "major"
  let age := getField body "age"
  let gpa := getField body "gpa"
  let email := getField body "email"
  let enrollmentDate := getField body "enrollmentDate"
  if !truthyOpt name || !truthyOpt email || gpa == none || gpa == some .null then
    (store, nextId, .error .missingFields)
  else
    match gpa, name, email with
    | some g, some nameV, some emailV =>
      if !isValidGpa g then
        (store, nextId, .error .invalidGpa)
      else if ageCheckFailsIdx age then
        (store, nextId, .error .invalidAge)
      else
        let newStudent : StudentI :=
          { id := .num nextId
            name := nameV
            major := jsOrDefault major (.str "Undeclared")
            age := jsOrDefault age .null
            gpa := g.toNumber
            email := emailV
            enrollmentDate := jsOrDefault enrollmentDate (.str today) }
        (store ++ [newStudent], nextId + 1, .ok newStudent)
    | _, _, _ => (store, nextId, .error .missingFields)

/-- One assignment `student[key] = ...` of the `index.js` update loop
(lines 153–163): keys owned by the record (its seven schema fields) are
assigned — `gpa` and `age` through `Number(...)` — and any other key is
ignored because `student.hasOwnProperty(key)` is false. -/
def setFieldI (s : StudentI) (k : String) (v : JSValue) : StudentI :=
  if k = "id" then { s with id := v }
  else if k = "name" then { s with name := v }
  else if k = "major" then { s with major := v }
  else if k = "age" then { s with age := v.toNumber }
  else if k = "gpa" then { s with gpa := v.toNumber }
  else if k = "email" then { s with email := v }
  else if k = "enrollmentDate" then { s with enrollmentDate := v }
  else s

/-- `Object.keys(updates).forEach(...)` of `index.js` (lines 153–163),
applied to a record. -/
def applyUpdatesI (s : StudentI) (u : Payload) : StudentI :=
  u.foldl (fun acc kv => setFieldI acc kv.1 kv.2) s

/-- The `name` validation of the `index.js` update handler (lines 147–149):
`some true` when the name is absent or trims to a non-empty string,
`some false` when it trims to the empty string, and `none` when
`updates.name.trim()` throws because the value is not a string. -/
def nameUpdateCheckIdx (u : Payload) : Option Bool :=
  match getField u "name" with
  | none => some true
  | some (.str s) => some (jsTrim s != "")
  | some _ => none

/-- The `gpa` validation of the `index.js` update handler (lines 144–146):
absent, or `isValidGpa(Number(updates.gpa))`. -/
def gpaUpdateOkIdx (u : Payload) : Bool :=
  match getField u "gpa" with
  | none => true
  | some v => isValidGpa v.toNumber

/-- `PATCH /studentrecords/:id` of `index.js` (lines 136–169): find the
record, validate `gpa` and `name` if present, then apply the update loop
in place.  Returns the new store and the outcome. -/
def updateIdx (store : List StudentI) (idStr : String) (body : Payload) :
    List StudentI × Except Err StudentI :=
  match findStudentIdxI store idStr with
  | none => (store, .error .notFound)
  | some i =>
    match store[i]? with
    | none => (store, .error .notFound)
    | some s =>
      if !gpaUpdateOkIdx body then
        (store, .error .invalidGpa)
      else
        match nameUpdateCheckIdx body with
        | none => (store, .error .internal)
        | some false => (store, .error .emptyName)
        | some true =>
          let s' := applyUpdatesI s body
          (store.set i s', .ok s')

/-- `DELETE /studentrecords/:id` of `index.js` (lines 173–190):
`students = students.filter(s => s.id !== id)`; 404 when the length did
not change, otherwise a 204 response whose body contains no record
(hence the `Option StudentI` response payload is `none` on success). -/
def deleteIdx (store : List StudentI) (idStr : String) :
    List StudentI × Except Err (Option StudentI) :=
  let filtered := store.filter (fun s => !s.id.strictEq (idTarget idStr))
  if filtered.length = store.length then
    (store, .error .notFound)
  else
    (filtered, .ok none)

/-- The result object of the list route's pagination stage:
`{ total, page, limit, data }`; `none` in `page` or `limit` models `NaN`. -/
structure PageResult (α : Type) where
  total : ℕ
  page : Option ℤ
  limit : Option ℤ
  data : List α
deriving DecidableEq, Repr

/-- `limit || '10'` on an optional query-string parameter: a missing or
empty (falsy) string is replaced by the default. -/
def strOrDefault (o : Option String) (d : String) : String :=
  match o with
  | none => d
  | some "" => d
  | some s => s

/-- `Array.prototype.slice(start, stop)` where the bounds are numbers or
`NaN` (`none`): `NaN` converts to 0, negative indices count from the end,
and both are clamped to the array length. -/
def jsSlice {α : Type} (l : List α) (start stop : Option ℤ) : List α :=
  let n : ℤ := l.length
  let conv : Option ℤ → ℕ := fun x =>
    match x with
    | none => 0
    | some i => if i < 0 then (max 0 (n + i)).toNat else (min i n).toNat
  (l.take (conv stop)).drop (conv start)

/-- The pagination stage of `GET /studentrecords` (`index.js` lines 73–83
and the identical lines 153–164 of the second unnamed variant), applied to
the post-sort sequence: `lim = Math.max(1, parseInt(limit || '10', 10))`,
`pg = Math.max(1, parseInt(page || '1', 10))`,
`data = results.slice((pg-1)*lim, (pg-1)*lim + lim)`.
`Math.max(1, NaN)` is `NaN`, and `NaN` propagates through the products. -/
def paginateStage {α : Type} (results : List α) (limit page : Option String) :
    PageResult α :=
  let lim : Option ℤ := (jsParseInt (strOrDefault limit "10")).map (fun x => max 1 x)
  let pg : Option ℤ := (jsParseInt (strOrDefault page "1")).map (fun x => max 1 x)
  let start : Option ℤ :=
    match pg, lim with
    | some p, some l => some ((p - 1) * l)
    | _, _ => none
  let stop : Option ℤ :=
    match start, lim with
    | some s, some l => some (s + l)
    | _, _ => none
  { total := results.length
    page := pg
    limit := lim
    data := jsSlice results start stop }

/-- `POST /studentrecords` of the first unnamed variant (its lines 23–58):
required-field check `!name || !email || gpa === undefined`, then the GPA
check `gpa < 0.0 || gpa > 4.0` (no type check, operands coerced by the
abstract relational comparison), then a record literal in which `gpa` is
stored RAW (no `Number(...)` coercion). -/
def createV1 (store : List StudentI) (nextId : ℤ) (body : Payload) (today : String) :
    List StudentI × ℤ × Except Err StudentI :=
  let name := getField body "name"
  let major := getField body "major"
  let age := getField body "age"
  let gpa := getField body "gpa"
  let email := getField body "email"
  let enrollmentDate := getField body "enrollmentDate"
  if !truthyOpt name || !truthyOpt email || gpa == none then
    (store, nextId, .error .missingFields)
  else
    match gpa, name, email with
    | some g, some nameV, some emailV =>
      if g.ltNum (.num 0) || g.gtNum (.num 4) then
        (store, nextId, .error .invalidGpa)
      else
        let newStudent : StudentI :=
          { id := .num nextId
            name := nameV
            major := jsOrDefault major (.str "Undeclared")
            age := jsOrDefault age .null
            gpa := g
            email := emailV
            enrollmentDate := jsOrDefault enrollmentDate (.str today) }
        (store ++ [newStudent], nextId + 1, .ok newStudent)
    | _, _, _ => (store, nextId, .error .missingFields)

/-- A record of the second unnamed variant, whose schema adds `indexNumber`. -/
structure Student2 where
  id : JSValue
  indexNumber : JSValue
  name : JSValue
  major : JSValue
  age : JSValue
  gpa : JSValue
  email : JSValue
  enrollmentDate : JSValue
deriving DecidableEq, Repr

/-- The seed collection of the second unnamed variant (its lines 74–80). -/
def seedStudents2 : List Student2 :=
  [ ⟨.num 101, .str "UG1001", .str "Alice Smith", .str "Computer Science", .num 20,
      .num (mkRat 19 5), .str "alice@example.com", .str "2023-09-01"⟩,
    ⟨.num 102, .str "UG1002", .str "Bob Johnson", .str "Mechanical Engineering", .num 21,
      .num (mkRat 16 5), .str "bob@example.com", .str "2022-09-01"⟩,
    ⟨.num 103, .str "UG1003", .str "Charlie Brown", .str "History", .num 19,
      .num (mkRat 29 10), .str "charlie@example.com", .str "2023-01-15"⟩,
    ⟨.num 104, .str "UG1004", .str "Dana Scully", .str "Biology", .num 22,
      .num (mkRat 79 20), .str "dana@example.com", .str "2021-09-01"⟩,
    ⟨.num 105, .str "UG1005", .str "Evan Peters", .str "Fine Arts", .num 20,
      .num (mkRat 7 2), .str "evan@example.com", .str "2023-09-01"⟩ ]

/-- `indexNumberRegex.test(v)` for `/^[A-Za-z0-9]+$/` (second variant,
line 91).  `test` coerces its argument to a string first: a string matches
iff it is non-empty and alphanumeric; `true`, `false`, `null` and `NaN`
stringify to alphanumeric words and match; a number matches iff its
decimal form has no sign, point or exponent, i.e. it is a non-negative
integer. -/
def indexNumberTest (v : JSValue) : Bool :=
  match v with
  | .str s => s != "" && s.data.all Char.isAlphanum
  | .num q => q.den == 1 && decide (0 ≤ q.num)
  | .nan => true
  | .bool _ => true
  | .null => true

/-- `isNaN(v)` applied to a value that is already a number. -/
def jsIsNaN (v : JSValue) : Bool :=
  match v with
  | .nan => true
  | _ => false

/-- `findStudentByIndex` of the second variant (lines 97–99):
first record whose `indexNumber` is strictly equal to the argument. -/
def findStudentByIndex2 (store : List Student2) (v : JSValue) : Option Student2 :=
  store.find? (fun s => s.indexNumber.strictEq v)

/-- The `age` field of the created record in the second variant (line 202):
`(typeof age === 'number') ? age : (age ? Number(age) : null)`. -/
def ageFieldV2 (o : Option JSValue) : JSValue :=
  match o with
  | some (.num q) => .num q
  | some .nan => .nan
  | some v => if v.truthy then v.toNumber else .null
  | none => .null

/-- `POST /studentrecords` of the second unnamed variant (lines 171–213):
required fields `name`, `email`, `gpa`, `indexNumber`; `indexNumber`
format check, then duplicate check (409), then `Number(gpa)` range check,
then the record literal. -/
def createV2 (store : List Student2) (nextId : ℤ) (body : Payload) (today : String) :
    List Student2 × ℤ × Except Err Student2 :=
  let name := getField body "name"
  let indexNumber := getField body "indexNumber"
  let major := getField body "major"
  let age := getField body "age"
  let gpa := getField body "gpa"
  let email := getField body "email"
  let enrollmentDate := getField body "enrollmentDate"
  if !truthyOpt name || !truthyOpt email || gpa == none || !truthyOpt indexNumber then
    (store, nextId, .error .missingFields)
  else
    match gpa, name, email, indexNumber with
    | some g, some nameV, some emailV, some ixV =>
      if !indexNumberTest ixV then
        (store, nextId, .error .invalidIndexFormat)
      else if (findStudentByIndex2 store ixV).isSome then
        (store, nextId, .error .conflictIndex)
      else
        let numericGpa := g.toNumber
        if jsIsNaN numericGpa || !isValidGpa numericGpa then
          (store, nextId, .error .invalidGpa)
        else
          let newStudent : Student2 :=
            { id := .num nextId
              indexNumber := ixV
              name := nameV
              major := jsOrDefault major (.str "Undeclared")
              age := ageFieldV2 age
              gpa := numericGpa
              email := emailV
              enrollmentDate := jsOrDefault enrollmentDate (.str today) }
          (store ++ [newStudent], nextId + 1, .ok newStudent)
    | _, _, _, _ => (store, nextId, .error .missingFields)

/-- `allowedFields` of the second variant's update handler (line 248). -/
def allowedFields : List String :=
  ["name", "indexNumber", "major", "age", "gpa", "email", "enrollmentDate"]

/-- One assignment of the second variant's update loop (lines 247–253):
only the keys in
`['name','indexNumber','major','age','gpa','email','enrollmentDate']`
are applied, with the raw payload value; `id` and unknown keys are
ignored. -/
def setField2 (s : Student2) (k : String) (v : JSValue) : Student2 :=
  if k = "name" then { s with name := v }
  else if k = "indexNumber" then { s with indexNumber := v }
  else if k = "major" then { s with major := v }
  else if k = "age" then { s with age := v }
  else if k = "gpa" then { s with gpa := v }
  else if k = "email" then { s with email := v }
  else if k = "enrollmentDate" then { s with enrollmentDate := v }
  else s

/-- The `forEach` apply loop of the second variant's update (lines 249–253). -/
def applyUpdates2 (s : Student2) (u : Payload) : Student2 :=
  u.foldl (fun acc kv => setField2 acc kv.1 kv.2) s

/-- `updates.gpa = numericGpa` (line 244): the payload with the `gpa`
value replaced by its coercion, before the apply loop runs. -/
def coerceGpaPayload (u : Payload) : Payload :=
  u.map (fun kv => if kv.1 = "gpa" then (kv.1, kv.2.toNumber) else kv)

/-- The `indexNumber` validation of the second variant's update handler
(lines 228–236): absent is fine; present values must match the format and
must not be used by a record with a different id. -/
def ixUpdateCheck (store : List Student2) (s : Student2) (body : Payload) :
    Except Err Unit :=
  match getField body "indexNumber" with
  | none => .ok ()
  | some v =>
    if !indexNumberTest v then .error .invalidIndexFormat
    else
      match findStudentByIndex2 store v with
      | some other =>
        if !other.id.strictEq s.id then .error .conflictIndex else .ok ()
      | none => .ok ()

/-- The `gpa` validation of the second variant's update handler
(lines 239–245): absent, or `Number(updates.gpa)` is a non-`NaN` valid
GPA. -/
def gpaUpdateOkV2 (body : Payload) : Bool :=
  match getField body "gpa" with
  | none => true
  | some v => !(jsIsNaN v.toNumber || !isValidGpa v.toNumber)

/-- `PATCH /studentrecords/:id` of the second unnamed variant
(lines 217–259): parse the id (400 on `NaN`), find the record (404),
validate `indexNumber` format and uniqueness against other records (409),
validate `Number(updates.gpa)` and write it back into the payload, then
apply the allow-listed fields. -/
def updateV2 (store : List Student2) (idStr : String) (body : Payload) :
    List Student2 × Except Err Student2 :=
  match jsParseInt idStr with
  | none => (store, .error .invalidId)
  | some n =>
    match store.findIdx? (fun s => s.id.strictEq (.num n)) with
    | none => (store, .error .notFound)
    | some i =>
      match store[i]? with
      | none => (store, .error .notFound)
      | some s =>
        match ixUpdateCheck store s body with
        | .error e => (store, .error e)
        | .ok _ =>
          match getField body "gpa" with
          | some v =>
            if jsIsNaN v.toNumber || !isValidGpa v.toNumber then
              (store, .error .invalidGpa)
            else
              let s' := applyUpdates2 s (coerceGpaPayload body)
              (store.set i s', .ok s')
          | none =>
            let s' := applyUpdates2 s body
            (store.set i s', .ok s')

/-- `DELETE /studentrecords/:id` of the second unnamed variant
(lines 262–275): parse the id (400 on `NaN`), `findIndex` (404), then
`splice(idx, 1)` and a 200 response carrying the deleted record. -/
def deleteV2 (store : List Student2) (idStr : String) :
    List Student2 × Except Err (Option Student2) :=
  match jsParseInt idStr with
  | none => (store, .error .invalidId)
  | some n =>
    match store.findIdx? (fun s => s.id.strictEq (.num n)) with
    | none => (store, .error .notFound)
    | some i =>
      match store[i]? with
      | none => (store, .error .notFound)
      | some s => (store.eraseIdx i, .ok (some s))

/-- The spec-side invariant predicate: the stored `gpa` is a (finite)
number lying in the closed interval `[0, 4]`. -/
def gpaInRange (v : JSValue) : Bool :=
  match v with
  | .num q => decide (0 ≤ q) && decide (q ≤ 4)
  | _ => false

/-!
Object-level view of the `index.js` records, used where key presence
itself is the subject: a record is its JavaScript object, an ordered list
of key/value pairs, and `hasOwnProperty` is key membership.
-/

/-- A JavaScript object as an ordered association list. -/
abbrev Obj := List (String × JSValue)

/-- `Object.keys(o)`, in insertion order. -/
def objKeys (o : Obj) : List String := o.map (fun kv => kv.1)

/-- The schema key set of the `index.js` variant, in the insertion order of
both the seed literals and the create literal. -/
def schemaKeysI : List String :=
  ["id", "name", "major", "age", "gpa", "email", "enrollmentDate"]

/-- The seed records of `index.js` (lines 9–15) as objects. -/
def seedObjsI : List Obj :=
  [ [("id", .num 101), ("name", .str "Alice Smith"), ("major", .str "Computer Science"),
     ("age", .num 20), ("gpa", .num (mkRat 19 5)), ("email", .str "alice@example.com"),
     ("enrollmentDate", .str "2023-09-01")],
    [("id", .num 102), ("name", .str "Bob Johnson"),
     ("major", .str "Mechanical Engineering"), ("age", .num 21), ("gpa", .num (mkRat 16 5)),
     ("email", .str "bob@example.com"), ("enrollmentDate", .str "2022-09-01")],
    [("id", .num 103), ("name", .str "Charlie Brown"), ("major", .str "History"),
     ("age", .num 19), ("gpa", .num (mkRat 29 10)), ("email", .str "charlie@example.com"),
     ("enrollmentDate", .str "2023-01-15")],
    [("id", .num 104), ("name", .str "Dana Scully"), ("major", .str "Biology"),
     ("age", .num 22), ("gpa", .num (mkRat 79 20)), ("email", .str "dana@example.com"),
     ("enrollmentDate", .str "2021-09-01")],
    [("id", .num 105), ("name", .str "Evan Peters"), ("major", .str "Fine Arts"),
     ("age", .num 20), ("gpa", .num (mkRat 7 2)), ("email", .str "evan@example.com"),
     ("enrollmentDate", .str "2023-09-01")] ]

/-- The `newStudent` object literal of the `index.js` create handler
(lines 117–125), given the destructured body fields (`none` = absent):
every one of the seven schema keys is written, with
`major: major || 'Undeclared'`, `age: age || null`,
`gpa: Number(gpa)` and the enrollment-date default. -/
def newStudentObj (nextId : ℤ) (nameV : JSValue) (major age : Option JSValue)
    (gpaV : JSValue) (emailV : JSValue) (enrollmentDate : Option JSValue)
    (today : String) : Obj :=
  [ ("id", .num nextId),
    ("name", nameV),
    ("major", jsOrDefault major (.str "Undeclared")),
    ("age", jsOrDefault age .null),
    ("gpa", gpaV.toNumber),
    ("email", emailV),
    ("enrollmentDate", jsOrDefault enrollmentDate (.str today)) ]

/-- Assignment `o[k] = v` on an object already owning the key `k`: the
value at `k` is replaced and no key is added or removed. -/
def assocSet (o : Obj) (k : String) (v : JSValue) : Obj :=
  o.map (fun kv => if kv.1 = k then (k, v) else kv)

/-- The `index.js` update loop (lines 153–163) at the object level:
for each payload key, `student.hasOwnProperty(key)` is key membership in
the record object, and the assigned value goes through `Number(...)`
exactly for `gpa` and `age`. -/
def applyUpdatesObj (o : Obj) (u : Payload) : Obj :=
  u.foldl
    (fun acc kv =>
      if (acc.lookup kv.1).isSome then
        if kv.1 = "gpa" ∨ kv.1 = "age" then assocSet acc kv.1 kv.2.toNumber
        else assocSet acc kv.1 kv.2
      else acc)
    o

/-!
Theorems.  Each claim's theorem carries the claim id in its doc comment;
shared helper lemmas precede them.
-/

/-- C1: the spec's invariant — `0.0 ≤ gpa ≤ 4.0` for every stored record,
preserved by every successful create — is broken by the first variant's
create handler: with the required fields present and `gpa` the string
`"abc"`, both range comparisons evaluate to false (`NaN` comparisons),
so validation passes and the raw string is pushed into the store, where
it satisfies no numeric bound.  The create succeeds (one record stored)
and the stored `gpa` is outside the invariant. -/
theorem createV1_stores_out_of_range_gpa :
    (createV1 [] 106 [("name", .str "Ann"), ("email", .str "ann@example.com"),
        ("gpa", .str "abc")] "2026-01-01").2.2.toOption.map StudentI.gpa
      = some (JSValue.str "abc") ∧
    gpaInRange (JSValue.str "abc") = false ∧
    (createV1 [] 106 [("name", .str "Ann"), ("email", .str "ann@example.com"),
        ("gpa", .str "abc")] "2026-01-01").1.length = 1 := by
  exact ⟨rfl, rfl, rfl⟩

/-- C2 counterexample: in the `index.js` variant the update loop guards
assignments with `student.hasOwnProperty(key)`, and `id` is an own
property of every record, so the payload `{"id": 999}` successfully
overwrites the id of record 101. -/
theorem updateIdx_overwrites_id :
    (updateIdx seedStudentsI "101" [("id", JSValue.num 999)]).2.toOption.map StudentI.id
      = some (JSValue.num 999) ∧
    JSValue.num 999 ≠ JSValue.num 101 := by
  exact ⟨rfl, by decide⟩

/-- C3 counterexample: the `index.js` update handler never validates
`age` (the source leaves it as a comment), so updating record 101 with
`{"age": 5}` succeeds and stores 5, although the claim requires the
recognized field `age` to be checked against `age ≥ 16`. -/
theorem updateIdx_stores_underage :
    (updateIdx seedStudentsI "101" [("age", JSValue.num 5)]).2.toOption.map StudentI.age
      = some (JSValue.num 5) ∧
    ¬ (16 ≤ (5 : ℚ)) := by
  exact ⟨rfl, by norm_num⟩

/-- C4 counterexample: for the create input
`{name: "Ann", email: "a@b", gpa: 0, age: 5}` all required fields are
present, yet `gpa = 0.0` does not succeed: the age check rejects the
request, refuting "create with gpa = 0.0 ... always succeeds" as
quantified over every create input whose required fields are present. -/
theorem createIdx_gpa_zero_can_fail :
    truthyOpt (getField [("name", JSValue.str "Ann"), ("email", JSValue.str "a@b"),
        ("gpa", JSValue.num 0), ("age", JSValue.num 5)] "name") = true ∧
    truthyOpt (getField [("name", JSValue.str "Ann"), ("email", JSValue.str "a@b"),
        ("gpa", JSValue.num 0), ("age", JSValue.num 5)] "email") = true ∧
    getField [("name", JSValue.str "Ann"), ("email", JSValue.str "a@b"),
        ("gpa", JSValue.num 0), ("age", JSValue.num 5)] "gpa" = some (JSValue.num 0) ∧
    (createIdx [] 106 [("name", JSValue.str "Ann"), ("email", JSValue.str "a@b"),
        ("gpa", JSValue.num 0), ("age", JSValue.num 5)] "2026-01-01").2.2
      = Except.error Err.invalidAge := by
  exact ⟨rfl, rfl, rfl, rfl⟩

/-- C6 counterexample: deleting existing record 101 in the `index.js`
variant succeeds (and removes the record — four remain of the five), but
the 204 response carries no record, so delete does not "return the
deleted record" there; returning the record would be `Except.ok (some r)`
for the deleted row, which differs from the actual `Except.ok none`. -/
theorem deleteIdx_returns_no_record :
    (deleteIdx seedStudentsI "101").2 = Except.ok none ∧
    (deleteIdx seedStudentsI "101").1.length = 4 ∧
    (Except.ok none : Except Err (Option StudentI))
      ≠ Except.ok (some (⟨.num 101, .str "Alice Smith", .str "Computer Science",
          .num 20, .num (mkRat 19 5), .str "alice@example.com",
          .str "2023-09-01"⟩ : StudentI)) := by
  refine ⟨rfl, rfl, fun h => Option.noConfusion (Except.ok.inj h)⟩

/-- C7 counterexample: with the non-numeric query value `limit=abc` (and
`page` missing), `parseInt` yields `NaN`, `Math.max(1, NaN)` is `NaN`,
and the slice bounds collapse to `[0, 0)`: the response reports
`limit: NaN` and an empty data array instead of the claimed default
`limit = 10`, under which the window over the five seed records would be
all five (non-empty). -/
theorem paginateStage_nan_limit_not_default :
    paginateStage seedStudentsI (some "abc") none
      = { total := 5, page := some 1, limit := none, data := [] } ∧
    seedStudentsI.take 10 ≠ [] := by
  exact ⟨rfl, by decide⟩

/-- C8 counterexample: `GET /studentrecords/:id` with the non-integer id
`"abc"` makes `parseInt` return `NaN`, no record's id is strictly equal
to `NaN`, and the handler answers with the not-found outcome — not with
an invalid-argument outcome as the claim requires. -/
theorem getByIdIdx_nonint_is_notFound :
    jsParseInt "abc" = none ∧
    getByIdIdx seedStudentsI "abc" = Except.error Err.notFound ∧
    Err.notFound ≠ Err.invalidId := by
  exact ⟨rfl, rfl, by decide⟩

/-- The allow-listed assignment of the second variant never writes `id`. -/
theorem setField2_id (s : Student2) (k : String) (v : JSValue) :
    (setField2 s k v).id = s.id := by
  unfold setField2
  split_ifs <;> rfl

/-- The second variant's whole update loop never writes `id`. -/
theorem applyUpdates2_id (u : Payload) (s : Student2) :
    (applyUpdates2 s u).id = s.id := by
  induction u generalizing s with
  | nil => rfl
  | cons kv rest ih =>
    have h1 : applyUpdates2 s (kv :: rest) = applyUpdates2 (setField2 s kv.1 kv.2) rest := rfl
    rw [h1, ih, setField2_id]

/-- The `index.js` assignment leaves `id` alone for any other key. -/
theorem setFieldI_id (s : StudentI) (k : String) (v : JSValue) (h : k ≠ "id") :
    (setFieldI s k v).id = s.id := by
  unfold setFieldI
  split_ifs <;> first | rfl | exact absurd (by assumption) h

/-- The `index.js` update loop leaves `id` alone when the payload has no
`id` key. -/
theorem applyUpdatesI_id (u : Payload) (s : StudentI)
    (h : getField u "id" = none) : (applyUpdatesI s u).id = s.id := by
  induction u generalizing s with
  | nil => rfl
  | cons kv rest ih =>
    obtain ⟨k, v⟩ := kv
    cases hkk : ("id" == k) with
    | true =>
      exfalso
      simp [getField, List.lookup, hkk] at h
    | false =>
      have hrest : getField rest "id" = none := by
        simpa [getField, List.lookup, hkk] using h
      have h1 : applyUpdatesI s ((k, v) :: rest) = applyUpdatesI (setFieldI s k v) rest := rfl
      rw [h1, ih _ hrest, setFieldI_id]
      intro hke
      rw [hke] at hkk
      simp at hkk

/-- C2 (amended): a record's id is immutable under the second variant's
allow-listed update for every payload (including payloads with an `id`
key, which the allow-list skips); under the `index.js` hasOwnProperty
update it is unchanged for every payload that does not contain an `id`
key — a payload containing an `id` key overwrites the id there. -/
theorem update_preserves_id_amended :
    (∀ (store : List Student2) (idStr : String) (body : Payload) (s' : Student2)
      (n : ℤ) (i : ℕ) (s : Student2),
      jsParseInt idStr = some n →
      store.findIdx? (fun t => t.id.strictEq (.num n)) = some i →
      store[i]? = some s →
      (updateV2 store idStr body).2 = .ok s' → s'.id = s.id) ∧
    (∀ (store : List StudentI) (idStr : String) (body : Payload) (s' : StudentI)
      (i : ℕ) (s : StudentI),
      findStudentIdxI store idStr = some i →
      store[i]? = some s →
      getField body "id" = none →
      (updateIdx store idStr body).2 = .ok s' → s'.id = s.id) := by
  constructor
  · intro store idStr body s' n i s h1 h2 h3 h4
    unfold updateV2 at h4
    simp only [h1, h2, h3] at h4
    cases hix : ixUpdateCheck store s body with
    | error e => simp only [hix] at h4; exact absurd h4 (by simp)
    | ok u =>
      simp only [hix] at h4
      cases hg : getField body "gpa" with
      | some v =>
        simp only [hg] at h4
        by_cases hv : (jsIsNaN v.toNumber || !isValidGpa v.toNumber) = true
        · rw [if_pos hv] at h4; exact absurd h4 (by simp)
        · rw [if_neg hv] at h4
          have h5 := Except.ok.inj h4
          rw [← h5, applyUpdates2_id]
      | none =>
        simp only [hg] at h4
        have h5 := Except.ok.inj h4
        rw [← h5, applyUpdates2_id]
  · intro store idStr body s' i s h1 h2 hid h4
    unfold updateIdx at h4
    simp only [h1, h2] at h4
    by_cases hg : (!gpaUpdateOkIdx body) = true
    · rw [if_pos hg] at h4; exact absurd h4 (by simp)
    · rw [if_neg hg] at h4
      cases hn : nameUpdateCheckIdx body with
      | none => simp only [hn] at h4; exact absurd h4 (by simp)
      | some b =>
        cases b with
        | false => simp only [hn] at h4; exact absurd h4 (by simp)
        | true =>
          simp only [hn] at h4
          have h5 := Except.ok.inj h4
          rw [← h5, applyUpdatesI_id _ _ hid]

/-- Witness for C2: updating record 101 of the second variant's seed with
the payload `{"id": 999}` leaves the record's id at 101. -/
theorem update_preserves_id_amended_witness :
    Student2.id ⟨.num 101, .str "UG1001", .str "Alice Smith", .str "Computer Science",
        .num 20, .num (mkRat 19 5), .str "alice@example.com", .str "2023-09-01"⟩
      = JSValue.num 101 :=
  update_preserves_id_amended.1 seedStudents2 "101" [("id", JSValue.num 999)]
    _ 101 0
    ⟨.num 101, .str "UG1001", .str "Alice Smith", .str "Computer Science",
      .num 20, .num (mkRat 19 5), .str "alice@example.com", .str "2023-09-01"⟩
    rfl rfl rfl rfl

/-- Nothing is strictly equal to `NaN`. -/
theorem strictEq_nan_right (v : JSValue) : v.strictEq .nan = false := by
  cases v <;> rfl

/-- C8 (amended): `GET /studentrecords/:id` has no invalid-argument path:
an id that does not parse to an integer makes `parseInt` return `NaN`,
which is strictly equal to no record's id, so the route answers NotFound;
when the id parses to `n`, the route returns the first record whose id is
`n`, or NotFound when there is none. -/
theorem getById_amended :
    ∀ (store : List StudentI) (idStr : String),
      (jsParseInt idStr = none → getByIdIdx store idStr = .error .notFound) ∧
      (∀ (n : ℤ) (s : StudentI), jsParseInt idStr = some n →
        store.find? (fun t => t.id.strictEq (.num n)) = some s →
        getByIdIdx store idStr = .ok s ∧ s ∈ store ∧ s.id.strictEq (.num n) = true) ∧
      (∀ n : ℤ, jsParseInt idStr = some n →
        store.find? (fun t => t.id.strictEq (.num n)) = none →
        getByIdIdx store idStr = .error .notFound) := by
  intro store idStr
  refine ⟨?_, ?_, ?_⟩
  · intro h
    unfold getByIdIdx idTarget
    simp only [h]
    have hf : store.find? (fun t => t.id.strictEq .nan) = none := by
      rw [List.find?_eq_none]
      intro x hx
      simp [strictEq_nan_right]
    simp only [hf]
  · intro n s h1 h2
    refine ⟨?_, List.mem_of_find?_eq_some h2, by simpa using List.find?_some h2⟩
    unfold getByIdIdx idTarget
    simp only [h1, h2]
  · intro n h1 h2
    unfold getByIdIdx idTarget
    simp only [h1, h2]

/-- Witness for C8: looking up id "102" in the seed store returns Bob's
record. -/
theorem getById_amended_witness :
    getByIdIdx seedStudentsI "102"
      = Except.ok ⟨.num 102, .str "Bob Johnson", .str "Mechanical Engineering",
          .num 21, .num (mkRat 16 5), .str "bob@example.com", .str "2022-09-01"⟩ :=
  ((getById_amended seedStudentsI "102").2.1 102 _ rfl rfl).1

/-- C9: updating an existing record with the payload containing only
`{"major": "Physics"}` succeeds in both full-CRUD variants and changes
only `major`: the new record agrees with the old one on every other field
(`id`, `name`, `age`, `gpa`, `email`, `enrollmentDate`, and `indexNumber`
in the variant that has it), and every other position of the store is
untouched. -/
theorem update_major_changes_only_major :
    (∀ (store : List StudentI) (idStr : String) (i : ℕ) (s : StudentI),
      findStudentIdxI store idStr = some i → store[i]? = some s →
      updateIdx store idStr [("major", JSValue.str "Physics")]
        = (store.set i { s with major := .str "Physics" },
           .ok { s with major := .str "Physics" }) ∧
      ({ s with major := JSValue.str "Physics" } : StudentI).id = s.id ∧
      ({ s with major := JSValue.str "Physics" } : StudentI).name = s.name ∧
      ({ s with major := JSValue.str "Physics" } : StudentI).age = s.age ∧
      ({ s with major := JSValue.str "Physics" } : StudentI).gpa = s.gpa ∧
      ({ s with major := JSValue.str "Physics" } : StudentI).email = s.email ∧
      ({ s with major := JSValue.str "Physics" } : StudentI).enrollmentDate
        = s.enrollmentDate ∧
      (∀ j : ℕ, j ≠ i →
        (store.set i { s with major := JSValue.str "Physics" })[j]? = store[j]?)) ∧
    (∀ (store : List Student2) (idStr : String) (n : ℤ) (i : ℕ) (s : Student2),
      jsParseInt idStr = some n →
      store.findIdx? (fun t => t.id.strictEq (.num n)) = some i →
      store[i]? = some s →
      updateV2 store idStr [("major", JSValue.str "Physics")]
        = (store.set i { s with major := .str "Physics" },
           .ok { s with major := .str "Physics" }) ∧
      ({ s with major := JSValue.str "Physics" } : Student2).id = s.id ∧
      ({ s with major := JSValue.str "Physics" } : Student2).indexNumber = s.indexNumber ∧
      ({ s with major := JSValue.str "Physics" } : Student2).name = s.name ∧
      ({ s with major := JSValue.str "Physics" } : Student2).age = s.age ∧
      ({ s with major := JSValue.str "Physics" } : Student2).gpa = s.gpa ∧
      ({ s with major := JSValue.str "Physics" } : Student2).email = s.email ∧
      ({ s with major := JSValue.str "Physics" } : Student2).enrollmentDate
        = s.enrollmentDate ∧
      (∀ j : ℕ, j ≠ i →
        (store.set i { s with major := JSValue.str "Physics" })[j]? = store[j]?)) := by
  constructor
  · intro store idStr i s h1 h2
    refine ⟨?_, rfl, rfl, rfl, rfl, rfl, rfl, ?_⟩
    · unfold updateIdx
      simp only [h1, h2]
      rfl
    · intro j hj
      exact List.getElem?_set_ne (Ne.symm hj)
  · intro store idStr n i s h1 h2 h3
    refine ⟨?_, rfl, rfl, rfl, rfl, rfl, rfl, rfl, ?_⟩
    · unfold updateV2
      simp only [h1, h2, h3]
      rfl
    · intro j hj
      exact List.getElem?_set_ne (Ne.symm hj)

/-- Witness for C9: updating seed record 103 with `{"major": "Physics"}`
rewrites exactly that record's `major`. -/
theorem update_major_changes_only_major_witness :
    updateIdx seedStudentsI "103" [("major", JSValue.str "Physics")]
      = (seedStudentsI.set 2 ⟨.num 103, .str "Charlie Brown", .str "Physics", .num 19,
           .num (mkRat 29 10), .str "charlie@example.com", .str "2023-01-15"⟩,
         Except.ok ⟨.num 103, .str "Charlie Brown", .str "Physics", .num 19,
           .num (mkRat 29 10), .str "charlie@example.com", .str "2023-01-15"⟩) :=
  (update_major_changes_only_major.1 seedStudentsI "103" 2
    ⟨.num 103, .str "Charlie Brown", .str "History", .num 19,
      .num (mkRat 29 10), .str "charlie@example.com", .str "2023-01-15"⟩ rfl rfl).1

/-- C5: `indexNumber` uniqueness in the variant that has the field.
(a) A create whose `indexNumber` strictly equals some stored record's
`indexNumber` fails with the conflict outcome and returns the store and
counter unchanged.  (b) An update that sets `indexNumber` to a value held
by some record, when every holder has a different id than the target,
fails with the conflict outcome and leaves the store unchanged.  (c) An
update that sets a record's `indexNumber` to its own current value (every
holder of that value having the target's id) succeeds and returns the
record unchanged. -/
theorem indexNumber_uniqueness :
    (∀ (store : List Student2) (nextId : ℤ) (body : Payload) (today : String)
      (nameV emailV g ixV : JSValue) (t : Student2),
      getField body "name" = some nameV → nameV.truthy = true →
      getField body "email" = some emailV → emailV.truthy = true →
      getField body "gpa" = some g →
      getField body "indexNumber" = some ixV → ixV.truthy = true →
      indexNumberTest ixV = true →
      t ∈ store → t.indexNumber.strictEq ixV = true →
      createV2 store nextId body today = (store, nextId, .error .conflictIndex)) ∧
    (∀ (store : List Student2) (idStr : String) (body : Payload)
      (n : ℤ) (i : ℕ) (s : Student2) (ixV : JSValue),
      jsParseInt idStr = some n →
      store.findIdx? (fun t => t.id.strictEq (.num n)) = some i →
      store[i]? = some s →
      getField body "indexNumber" = some ixV →
      indexNumberTest ixV = true →
      (∃ t ∈ store, t.indexNumber.strictEq ixV = true) →
      (∀ t ∈ store, t.indexNumber.strictEq ixV = true → t.id.strictEq s.id = false) →
      updateV2 store idStr body = (store, .error .conflictIndex)) ∧
    (∀ (store : List Student2) (idStr : String) (n : ℤ) (i : ℕ) (s : Student2),
      jsParseInt idStr = some n →
      store.findIdx? (fun t => t.id.strictEq (.num n)) = some i →
      store[i]? = some s →
      indexNumberTest s.indexNumber = true →
      (∀ t ∈ store, t.indexNumber.strictEq s.indexNumber = true →
        t.id.strictEq s.id = true) →
      (updateV2 store idStr [("indexNumber", s.indexNumber)]).2 = .ok s) := by
  refine ⟨?_, ?_, ?_⟩
  · intro store nextId body today nameV emailV g ixV t h1 h2 h3 h4 h5 h6 h7 h8 h9 h10
    have hfind : (findStudentByIndex2 store ixV).isSome = true := by
      unfold findStudentByIndex2
      rw [List.find?_isSome]
      exact ⟨t, h9, h10⟩
    unfold createV2
    simp only [h1, h3, h5, h6, truthyOpt, h2, h4, h7, h8, hfind, Bool.not_true,
      Bool.or_false, Bool.false_or, Bool.or_self, if_false,
      show (some g == (none : Option JSValue)) = false from rfl]
    rfl
  · intro store idStr body n i s ixV h1 h2 h3 h4 h5 hex hall
    obtain ⟨other, hother⟩ : ∃ o, findStudentByIndex2 store ixV = some o := by
      rw [Option.isSome_iff_exists.symm]
      unfold findStudentByIndex2
      rw [List.find?_isSome]
      obtain ⟨t, ht, hteq⟩ := hex
      exact ⟨t, ht, hteq⟩
    have hmem : other ∈ store := List.mem_of_find?_eq_some hother
    have hpred : other.indexNumber.strictEq ixV = true := by
      simpa using List.find?_some hother
    have hid : other.id.strictEq s.id = false := hall other hmem hpred
    unfold updateV2
    simp only [h1, h2, h3]
    have hix : ixUpdateCheck store s body = .error .conflictIndex := by
      unfold ixUpdateCheck
      simp only [h4, h5, hother, hid, Bool.not_true, Bool.not_false, if_true, if_false]
      rfl
    simp only [hix]
  · intro store idStr n i s h1 h2 h3 h4 hall
    unfold updateV2
    simp only [h1, h2, h3]
    have hix : ixUpdateCheck store s [("indexNumber", s.indexNumber)] = .ok () := by
      unfold ixUpdateCheck
      have hg : getField [("indexNumber", s.indexNumber)] "indexNumber"
          = some s.indexNumber := rfl
      simp only [hg, h4, Bool.not_true, if_false]
      cases hfind : findStudentByIndex2 store s.indexNumber with
      | none => rfl
      | some other =>
        have hmem : other ∈ store := List.mem_of_find?_eq_some hfind
        have hpred : other.indexNumber.strictEq s.indexNumber = true := by
          simpa using List.find?_some hfind
        have hid : other.id.strictEq s.id = true := hall other hmem hpred
        simp only [hid, Bool.not_true, if_false]
        rfl
    simp only [hix]
    rfl

/-- Witness for C5: on the second variant's seed store, creating with
`indexNumber "UG1003"` conflicts, updating record 101 to `"UG1002"`
conflicts, and updating record 101 to its own `"UG1001"` succeeds. -/
theorem indexNumber_uniqueness_witness :
    createV2 seedStudents2 106 [("name", JSValue.str "Zoe"),
        ("email", JSValue.str "zoe@example.com"), ("gpa", JSValue.num 3),
        ("indexNumber", JSValue.str "UG1003")] "2026-01-01"
      = (seedStudents2, 106, Except.error Err.conflictIndex) ∧
    updateV2 seedStudents2 "101" [("indexNumber", JSValue.str "UG1002")]
      = (seedStudents2, Except.error Err.conflictIndex) ∧
    (updateV2 seedStudents2 "101" [("indexNumber", JSValue.str "UG1001")]).2
      = Except.ok ⟨.num 101, .str "UG1001", .str "Alice Smith", .str "Computer Science",
          .num 20, .num (mkRat 19 5), .str "alice@example.com", .str "2023-09-01"⟩ := by
  refine ⟨?_, ?_, ?_⟩
  · exact indexNumber_uniqueness.1 seedStudents2 106 _ "2026-01-01"
      (.str "Zoe") (.str "zoe@example.com") (.num 3) (.str "UG1003")
      ⟨.num 103, .str "UG1003", .str "Charlie Brown", .str "History", .num 19,
        .num (mkRat 29 10), .str "charlie@example.com", .str "2023-01-15"⟩
      rfl rfl rfl rfl rfl rfl rfl rfl (by decide) rfl
  · exact indexNumber_uniqueness.2.1 seedStudents2 "101" _ 101 0
      ⟨.num 101, .str "UG1001", .str "Alice Smith", .str "Computer Science",
        .num 20, .num (mkRat 19 5), .str "alice@example.com", .str "2023-09-01"⟩
      (.str "UG1002") rfl rfl rfl rfl rfl (by decide) (by decide)
  · exact indexNumber_uniqueness.2.2 seedStudents2 "101" 101 0
      ⟨.num 101, .str "UG1001", .str "Alice Smith", .str "Computer Science",
        .num 20, .num (mkRat 19 5), .str "alice@example.com", .str "2023-09-01"⟩
      rfl rfl rfl rfl (by decide)

/-- Assigning through an owned key never changes an object's key list. -/
theorem objKeys_assocSet (o : Obj) (k : String) (v : JSValue) :
    objKeys (assocSet o k v) = objKeys o := by
  induction o with
  | nil => rfl
  | cons kv rest ih =>
    show (if kv.1 = k then (k, v) else kv).1 :: objKeys (assocSet rest k v)
        = kv.1 :: objKeys rest
    rw [ih]
    by_cases h : kv.1 = k
    · rw [if_pos h, h]
    · rw [if_neg h]

/-- The hasOwnProperty-guarded update loop never changes the key list. -/
theorem objKeys_applyUpdatesObj (u : Payload) (o : Obj) :
    objKeys (applyUpdatesObj o u) = objKeys o := by
  induction u generalizing o with
  | nil => rfl
  | cons kv rest ih =>
    have h1 : applyUpdatesObj o (kv :: rest)
        = applyUpdatesObj
            (if (o.lookup kv.1).isSome then
              (if kv.1 = "gpa" ∨ kv.1 = "age" then assocSet o kv.1 kv.2.toNumber
               else assocSet o kv.1 kv.2)
             else o) rest := rfl
    rw [h1, ih]
    by_cases hs : (o.lookup kv.1).isSome = true
    · by_cases hk : kv.1 = "gpa" ∨ kv.1 = "age"
      · rw [if_pos hs, if_pos hk, objKeys_assocSet]
      · rw [if_pos hs, if_neg hk, objKeys_assocSet]
    · rw [if_neg hs]

/-- A key in an object's key list is found by `lookup`. -/
theorem lookup_isSome_of_mem_keys (o : Obj) (k : String) (h : k ∈ objKeys o) :
    (o.lookup k).isSome = true := by
  induction o with
  | nil => simp [objKeys] at h
  | cons kv rest ih =>
    by_cases hk : (k == kv.1) = true
    · simp [List.lookup, hk]
    · have hmem : k ∈ objKeys rest := by
        rcases List.mem_cons.mp h with h' | h'
        · exact absurd (by simp [h']) hk
        · exact h'
      simp only [List.lookup, hk]
      exact ih hmem

/-- C10: every record owns exactly the seven schema keys.  The create
literal of `index.js` writes all seven keys for any input, storing `null`
for an absent `age` and `"Undeclared"` for an absent `major`; the five
seed records own exactly those keys; the hasOwnProperty update loop
preserves the key list of any record object; and a record owning the
schema keys has every schema field reachable by that loop's
`hasOwnProperty` test. -/
theorem schema_key_set :
    (∀ (nextId : ℤ) (nameV : JSValue) (major age : Option JSValue)
        (gpaV emailV : JSValue) (enrollmentDate : Option JSValue) (today : String),
      objKeys (newStudentObj nextId nameV major age gpaV emailV enrollmentDate today)
        = schemaKeysI ∧
      (age = none →
        (newStudentObj nextId nameV major age gpaV emailV enrollmentDate today).lookup
          "age" = some .null) ∧
      (major = none →
        (newStudentObj nextId nameV major age gpaV emailV enrollmentDate today).lookup
          "major" = some (.str "Undeclared"))) ∧
    (∀ o ∈ seedObjsI, objKeys o = schemaKeysI) ∧
    (∀ (o : Obj) (u : Payload), objKeys (applyUpdatesObj o u) = objKeys o) ∧
    (∀ (o : Obj) (k : String), objKeys o = schemaKeysI → k ∈ schemaKeysI →
      (o.lookup k).isSome = true) := by
  refine ⟨?_, by decide, ?_, ?_⟩
  · intro nextId nameV major age gpaV emailV enrollmentDate today
    refine ⟨rfl, ?_, ?_⟩
    · intro h
      rw [h]
      rfl
    · intro h
      rw [h]
      rfl
  · intro o u
    exact objKeys_applyUpdatesObj u o
  · intro o k ho hk
    exact lookup_isSome_of_mem_keys o k (ho ▸ hk)

/-- Witness for C10: a create with name, gpa and email only produces a
record owning exactly the schema keys, with `age` stored as `null` and
`major` as `"Undeclared"`; the first seed record owns the schema keys and
its `gpa` is reachable by lookup. -/
theorem schema_key_set_witness :
    objKeys (newStudentObj 106 (.str "Ann") none none (.num 3) (.str "ann@example.com")
        none "2026-01-01") = schemaKeysI ∧
    (newStudentObj 106 (.str "Ann") none none (.num 3) (.str "ann@example.com")
        none "2026-01-01").lookup "age" = some .null ∧
    (newStudentObj 106 (.str "Ann") none none (.num 3) (.str "ann@example.com")
        none "2026-01-01").lookup "major" = some (.str "Undeclared") ∧
    objKeys [("id", JSValue.num 101), ("name", JSValue.str "Alice Smith"),
        ("major", JSValue.str "Computer Science"), ("age", JSValue.num 20),
        ("gpa", JSValue.num (mkRat 19 5)), ("email", JSValue.str "alice@example.com"),
        ("enrollmentDate", JSValue.str "2023-09-01")] = schemaKeysI ∧
    (List.lookup "gpa" [("id", JSValue.num 101), ("name", JSValue.str "Alice Smith"),
        ("major", JSValue.str "Computer Science"), ("age", JSValue.num 20),
        ("gpa", JSValue.num (mkRat 19 5)), ("email", JSValue.str "alice@example.com"),
        ("enrollmentDate", JSValue.str "2023-09-01")]).isSome = true := by
  have h := schema_key_set
  refine ⟨(h.1 106 (.str "Ann") none none (.num 3) (.str "ann@example.com")
      none "2026-01-01").1,
    (h.1 106 (.str "Ann") none none (.num 3) (.str "ann@example.com")
      none "2026-01-01").2.1 rfl,
    (h.1 106 (.str "Ann") none none (.num 3) (.str "ann@example.com")
      none "2026-01-01").2.2 rfl,
    h.2.1 _ (by decide), ?_⟩
  exact h.2.2.2 _ "gpa" (h.2.1 _ (by decide)) (by decide)

/-- C4 (amended): for every create input whose required fields are present
and whose remaining fields also pass their checks (age absent, `null` or a
number at least 16; in the `indexNumber` variant, an alphanumeric
`indexNumber` not used by any stored record), a gpa of `-0.1` or `4.1`
fails with the GPA validation outcome and a gpa of `0.0` or `4.0`
succeeds — the bounds are inclusive.  (The unamended claim, quantifying
over every input with required fields present, fails when another present
field is invalid.) -/
theorem create_gpa_bounds_amended :
    (∀ (store : List StudentI) (nextId : ℤ) (body : Payload) (today : String)
        (nameV emailV g : JSValue),
      getField body "name" = some nameV → nameV.truthy = true →
      getField body "email" = some emailV → emailV.truthy = true →
      getField body "gpa" = some g →
      ageCheckFailsIdx (getField body "age") = false →
      ((g = .num (mkRat (-1) 10) ∨ g = .num (mkRat 41 10)) →
        (createIdx store nextId body today).2.2 = .error .invalidGpa) ∧
      ((g = .num 0 ∨ g = .num 4) →
        (createIdx store nextId body today).2.2.isOk = true)) ∧
    (∀ (store : List Student2) (nextId : ℤ) (body : Payload) (today : String)
        (nameV emailV g ixV : JSValue),
      getField body "name" = some nameV → nameV.truthy = true →
      getField body "email" = some emailV → emailV.truthy = true →
      getField body "gpa" = some g →
      getField body "indexNumber" = some ixV → ixV.truthy = true →
      indexNumberTest ixV = true →
      findStudentByIndex2 store ixV = none →
      ((g = .num (mkRat (-1) 10) ∨ g = .num (mkRat 41 10)) →
        (createV2 store nextId body today).2.2 = .error .invalidGpa) ∧
      ((g = .num 0 ∨ g = .num 4) →
        (createV2 store nextId body today).2.2.isOk = true)) := by
  constructor
  · intro store nextId body today nameV emailV g h1 h2 h3 h4 h5 hage
    constructor
    · rintro (rfl | rfl) <;>
      · unfold createIdx
        simp only [h1, h2, h3, h4, h5, truthyOpt, Bool.not_true, Bool.or_false,
          Bool.false_or]
        rfl
    · rintro (rfl | rfl) <;>
      · unfold createIdx
        simp only [h1, h2, h3, h4, h5, hage, truthyOpt, Bool.not_true, Bool.or_false,
          Bool.false_or]
        rfl
  · intro store nextId body today nameV emailV g ixV h1 h2 h3 h4 h5 h6 h7 h8 h9
    constructor
    · rintro (rfl | rfl) <;>
      · unfold createV2
        simp only [h1, h2, h3, h4, h5, h6, h7, h8, h9, truthyOpt, Bool.not_true,
          Bool.or_false, Bool.false_or]
        rfl
    · rintro (rfl | rfl) <;>
      · unfold createV2
        simp only [h1, h2, h3, h4, h5, h6, h7, h8, h9, truthyOpt, Bool.not_true,
          Bool.or_false, Bool.false_or]
        rfl

/-- Witness for C4: with required fields present and no other field, a
create with gpa 0 succeeds and a create with gpa -0.1 fails with the GPA
validation outcome. -/
theorem create_gpa_bounds_amended_witness :
    (createIdx seedStudentsI 106 [("name", JSValue.str "Ann"),
        ("email", JSValue.str "ann@example.com"), ("gpa", JSValue.num 0)]
      "2026-01-01").2.2.isOk = true ∧
    (createIdx seedStudentsI 106 [("name", JSValue.str "Ann"),
        ("email", JSValue.str "ann@example.com"), ("gpa", JSValue.num (mkRat (-1) 10))]
      "2026-01-01").2.2 = Except.error Err.invalidGpa :=
  ⟨(create_gpa_bounds_amended.1 seedStudentsI 106
      [("name", JSValue.str "Ann"), ("email", JSValue.str "ann@example.com"),
        ("gpa", JSValue.num 0)] "2026-01-01" (.str "Ann")
      (.str "ann@example.com") (.num 0) rfl rfl rfl rfl rfl rfl).2 (Or.inl rfl),
   (create_gpa_bounds_amended.1 seedStudentsI 106
      [("name", JSValue.str "Ann"), ("email", JSValue.str "ann@example.com"),
        ("gpa", JSValue.num (mkRat (-1) 10))] "2026-01-01" (.str "Ann")
      (.str "ann@example.com") (.num (mkRat (-1) 10)) rfl rfl rfl rfl rfl rfl).1
     (Or.inl rfl)⟩

/-- The `index.js` assignment leaves `gpa` alone for any other key. -/
theorem setFieldI_gpa_other (t : StudentI) (k : String) (v : JSValue) (h : k ≠ "gpa") :
    (setFieldI t k v).gpa = t.gpa := by
  unfold setFieldI
  split_ifs <;> rfl

/-- The `index.js` assignment leaves `age` alone for any other key. -/
theorem setFieldI_age_other (t : StudentI) (k : String) (v : JSValue) (h : k ≠ "age") :
    (setFieldI t k v).age = t.age := by
  unfold setFieldI
  split_ifs <;> rfl

/-- The allow-listed assignment leaves `gpa` alone for any other key. -/
theorem setField2_gpa_other (t : Student2) (k : String) (v : JSValue) (h : k ≠ "gpa") :
    (setField2 t k v).gpa = t.gpa := by
  unfold setField2
  split_ifs <;> rfl

/-- The allow-listed assignment leaves `age` alone for any other key. -/
theorem setField2_age_other (t : Student2) (k : String) (v : JSValue) (h : k ≠ "age") :
    (setField2 t k v).age = t.age := by
  unfold setField2
  split_ifs <;> rfl

/-- The `index.js` update loop leaves `gpa` alone when the payload has no
`gpa` key. -/
theorem applyUpdatesI_gpa_of_none (u : Payload) (t : StudentI)
    (h : getField u "gpa" = none) : (applyUpdatesI t u).gpa = t.gpa := by
  induction u generalizing t with
  | nil => rfl
  | cons kv rest ih =>
    obtain ⟨k, v⟩ := kv
    cases hkk : ("gpa" == k) with
    | true => exfalso; simp [getField, List.lookup, hkk] at h
    | false =>
      have hrest : getField rest "gpa" = none := by
        simpa [getField, List.lookup, hkk] using h
      have h1 : applyUpdatesI t ((k, v) :: rest) = applyUpdatesI (setFieldI t k v) rest := rfl
      rw [h1, ih _ hrest, setFieldI_gpa_other]
      intro hke
      rw [hke] at hkk
      simp at hkk

/-- The `index.js` update loop leaves `age` alone when the payload has no
`age` key. -/
theorem applyUpdatesI_age_of_none (u : Payload) (t : StudentI)
    (h : getField u "age" = none) : (applyUpdatesI t u).age = t.age := by
  induction u generalizing t with
  | nil => rfl
  | cons kv rest ih =>
    obtain ⟨k, v⟩ := kv
    cases hkk : ("age" == k) with
    | true => exfalso; simp [getField, List.lookup, hkk] at h
    | false =>
      have hrest : getField rest "age" = none := by
        simpa [getField, List.lookup, hkk] using h
      have h1 : applyUpdatesI t ((k, v) :: rest) = applyUpdatesI (setFieldI t k v) rest := rfl
      rw [h1, ih _ hrest, setFieldI_age_other]
      intro hke
      rw [hke] at hkk
      simp at hkk

/-- The second variant's update loop leaves `gpa` alone when the payload
has no `gpa` key. -/
theorem applyUpdates2_gpa_of_none (u : Payload) (t : Student2)
    (h : getField u "gpa" = none) : (applyUpdates2 t u).gpa = t.gpa := by
  induction u generalizing t with
  | nil => rfl
  | cons kv rest ih =>
    obtain ⟨k, v⟩ := kv
    cases hkk : ("gpa" == k) with
    | true => exfalso; simp [getField, List.lookup, hkk] at h
    | false =>
      have hrest : getField rest "gpa" = none := by
        simpa [getField, List.lookup, hkk] using h
      have h1 : applyUpdates2 t ((k, v) :: rest) = applyUpdates2 (setField2 t k v) rest := rfl
      rw [h1, ih _ hrest, setField2_gpa_other]
      intro hke
      rw [hke] at hkk
      simp at hkk

/-- The second variant's update loop leaves `age` alone when the payload
has no `age` key. -/
theorem applyUpdates2_age_of_none (u : Payload) (t : Student2)
    (h : getField u "age" = none) : (applyUpdates2 t u).age = t.age := by
  induction u generalizing t with
  | nil => rfl
  | cons kv rest ih =>
    obtain ⟨k, v⟩ := kv
    cases hkk : ("age" == k) with
    | true => exfalso; simp [getField, List.lookup, hkk] at h
    | false =>
      have hrest : getField rest "age" = none := by
        simpa [getField, List.lookup, hkk] using h
      have h1 : applyUpdates2 t ((k, v) :: rest) = applyUpdates2 (setField2 t k v) rest := rfl
      rw [h1, ih _ hrest, setField2_age_other]
      intro hke
      rw [hke] at hkk
      simp at hkk

/-- The update loops run left to right over an appended payload. -/
theorem applyUpdatesI_append (t : StudentI) (a b : Payload) :
    applyUpdatesI t (a ++ b) = applyUpdatesI (applyUpdatesI t a) b :=
  List.foldl_append _ _ _ _

/-- The second variant's loop runs left to right over an appended payload. -/
theorem applyUpdates2_append (t : Student2) (a b : Payload) :
    applyUpdates2 t (a ++ b) = applyUpdates2 (applyUpdates2 t a) b :=
  List.foldl_append _ _ _ _

/-- `coerceGpaPayload` only rewrites the value at a `gpa` key, so every
other lookup is unchanged. -/
theorem getField_coerceGpaPayload (u : Payload) (k : String) (h : k ≠ "gpa") :
    getField (coerceGpaPayload u) k = getField u k := by
  induction u with
  | nil => rfl
  | cons kv rest ih =>
    obtain ⟨k', v⟩ := kv
    by_cases hg : k' = "gpa"
    · have hne : (k == k') = false := by
        subst hg
        simpa using h
      show getField ((if k' = "gpa" then (k', v.toNumber) else (k', v))
          :: coerceGpaPayload rest) k = _
      rw [if_pos hg]
      simp only [getField, List.lookup, hne] at *
      exact ih
    · show getField ((if k' = "gpa" then (k', v.toNumber) else (k', v))
          :: coerceGpaPayload rest) k = _
      rw [if_neg hg]
      cases hne : (k == k') with
      | true => simp [getField, List.lookup, hne]
      | false =>
        simp only [getField, List.lookup, hne] at *
        exact ih

/-- A payload that spells out a key certainly contains it. -/
theorem getField_append_self (u1 u2 : Payload) (k : String) (v : JSValue) :
    (getField (u1 ++ (k, v) :: u2) k).isSome = true := by
  induction u1 with
  | nil => simp [getField, List.lookup]
  | cons kv rest ih =>
    cases hne : (k == kv.1) with
    | true => simp [getField, List.lookup, hne]
    | false =>
      show (List.lookup k ((kv.1, kv.2) :: (rest ++ (k, v) :: u2))).isSome = true
      simp only [List.lookup, hne]
      exact ih

/-- `coerceGpaPayload` acts on the `gpa` lookup as `Number(...)`. -/
theorem getField_coerceGpaPayload_gpa (u : Payload) :
    getField (coerceGpaPayload u) "gpa"
      = (getField u "gpa").map JSValue.toNumber := by
  induction u with
  | nil => rfl
  | cons kv rest ih =>
    obtain ⟨k, v⟩ := kv
    by_cases hg : k = "gpa"
    · subst hg
      simp [getField, List.lookup, coerceGpaPayload]
    · show getField ((if k = "gpa" then (k, v.toNumber) else (k, v))
          :: coerceGpaPayload rest) "gpa" = _
      rw [if_neg hg]
      have hne : ("gpa" == k) = false := by
        simpa using Ne.symm hg
      simp only [getField, List.lookup, hne]
      exact ih

/-- A successful outcome carries a success value. -/
theorem exceptOk_exists {ε α : Type} {e : Except ε α} (h : e.isOk = true) :
    ∃ a, e = .ok a := by
  cases e with
  | error x => exact absurd h (by simp [Except.isOk, Except.toBool])
  | ok a => exact ⟨a, rfl⟩

/-- C3 (amended): update validates only `gpa` (coerced by `Number(...)`
then range-checked) and `name` (non-empty after trim, when a string) in
the hasOwnProperty variant, and only `indexNumber` (format plus
uniqueness) and `gpa` (coerced, range) in the allow-listed variant；
unknown fields are silently ignored by both loops; the hasOwnProperty
variant coerces `gpa` and `age` to numbers before storage, while the
allow-listed variant coerces only `gpa` and stores `age` (and every other
recognized field, `age` unvalidated in both variants) verbatim. -/
theorem update_validation_amended :
    (∀ (store : List StudentI) (idStr : String) (body : Payload) (i : ℕ) (s : StudentI),
      findStudentIdxI store idStr = some i → store[i]? = some s →
      ((updateIdx store idStr body).2.isOk = true ↔
        (gpaUpdateOkIdx body = true ∧ nameUpdateCheckIdx body = some true)) ∧
      (∀ (u1 u2 : Payload) (v : JSValue) (s' : StudentI),
        body = u1 ++ ("gpa", v) :: u2 → getField u2 "gpa" = none →
        (updateIdx store idStr body).2 = .ok s' → s'.gpa = v.toNumber) ∧
      (∀ (u1 u2 : Payload) (v : JSValue) (s' : StudentI),
        body = u1 ++ ("age", v) :: u2 → getField u2 "age" = none →
        (updateIdx store idStr body).2 = .ok s' → s'.age = v.toNumber)) ∧
    (∀ (k : String) (v : JSValue) (t : StudentI),
      k ∉ schemaKeysI → setFieldI t k v = t) ∧
    (∀ (store : List Student2) (idStr : String) (body : Payload)
        (n : ℤ) (i : ℕ) (s : Student2),
      jsParseInt idStr = some n →
      store.findIdx? (fun t => t.id.strictEq (.num n)) = some i →
      store[i]? = some s →
      ((updateV2 store idStr body).2.isOk = true ↔
        (ixUpdateCheck store s body = .ok () ∧ gpaUpdateOkV2 body = true)) ∧
      (∀ (u1 u2 : Payload) (v : JSValue) (s' : Student2),
        body = u1 ++ ("gpa", v) :: u2 → getField u2 "gpa" = none →
        (updateV2 store idStr body).2 = .ok s' → s'.gpa = v.toNumber) ∧
      (∀ (u1 u2 : Payload) (v : JSValue) (s' : Student2),
        body = u1 ++ ("age", v) :: u2 → getField u2 "age" = none →
        (updateV2 store idStr body).2 = .ok s' → s'.age = v)) ∧
    (∀ (k : String) (v : JSValue) (t : Student2),
      k ∉ allowedFields → setField2 t k v = t) := by
  refine ⟨?_, ?_, ?_, ?_⟩
  · intro store idStr body i s h1 h2
    have hget : ∀ s', (updateIdx store idStr body).2 = .ok s' →
        s' = applyUpdatesI s body ∧ gpaUpdateOkIdx body = true ∧
          nameUpdateCheckIdx body = some true := by
      intro s' hok
      unfold updateIdx at hok
      simp only [h1, h2] at hok
      by_cases hg : (!gpaUpdateOkIdx body) = true
      · rw [if_pos hg] at hok; exact absurd hok (by simp)
      · rw [if_neg hg] at hok
        cases hn : nameUpdateCheckIdx body with
        | none => simp only [hn] at hok; exact absurd hok (by simp)
        | some b =>
          cases b with
          | false => simp only [hn] at hok; exact absurd hok (by simp)
          | true =>
            simp only [hn] at hok
            exact ⟨(Except.ok.inj hok).symm, by simpa using hg, rfl⟩
    refine ⟨⟨?_, ?_⟩, ?_, ?_⟩
    · intro hOk
      obtain ⟨s', hs'⟩ := exceptOk_exists hOk
      exact (hget s' hs').2
    · rintro ⟨hg, hn⟩
      unfold updateIdx
      simp only [h1, h2, hg, hn, Bool.not_true, Bool.false_eq_true, if_false]
      rfl
    · intro u1 u2 v s' hbody hnone hok
      have hs' := (hget s' hok).1
      subst hbody
      rw [hs', applyUpdatesI_append]
      have hstep : applyUpdatesI (applyUpdatesI s u1) (("gpa", v) :: u2)
          = applyUpdatesI (setFieldI (applyUpdatesI s u1) "gpa" v) u2 := rfl
      rw [hstep, applyUpdatesI_gpa_of_none _ _ hnone]
      rfl
    · intro u1 u2 v s' hbody hnone hok
      have hs' := (hget s' hok).1
      subst hbody
      rw [hs', applyUpdatesI_append]
      have hstep : applyUpdatesI (applyUpdatesI s u1) (("age", v) :: u2)
          = applyUpdatesI (setFieldI (applyUpdatesI s u1) "age" v) u2 := rfl
      rw [hstep, applyUpdatesI_age_of_none _ _ hnone]
      rfl
  · intro k v t hk
    unfold setFieldI
    simp [schemaKeysI] at hk
    split_ifs <;> simp_all
  · intro store idStr body n i s h1 h2 h3
    have hget : ∀ s', (updateV2 store idStr body).2 = .ok s' →
        ixUpdateCheck store s body = .ok () ∧ gpaUpdateOkV2 body = true ∧
          ((getField body "gpa" = none → s' = applyUpdates2 s body) ∧
           (∀ w, getField body "gpa" = some w →
             s' = applyUpdates2 s (coerceGpaPayload body))) := by
      intro s' hok
      unfold updateV2 at hok
      simp only [h1, h2, h3] at hok
      cases hix : ixUpdateCheck store s body with
      | error e => simp only [hix] at hok; exact absurd hok (by simp)
      | ok u =>
        cases u
        simp only [hix] at hok
        cases hgf : getField body "gpa" with
        | none =>
          simp only [hgf] at hok
          refine ⟨rfl, ?_, fun _ => (Except.ok.inj hok).symm,
            fun w hw => Option.noConfusion hw⟩
          unfold gpaUpdateOkV2
          rw [hgf]
        | some w =>
          simp only [hgf] at hok
          by_cases hcond : (jsIsNaN w.toNumber || !isValidGpa w.toNumber) = true
          · rw [if_pos hcond] at hok; exact absurd hok (by simp)
          · rw [if_neg hcond] at hok
            refine ⟨rfl, ?_, fun hno => Option.noConfusion hno,
              fun w' hw' => (Except.ok.inj hok).symm⟩
            unfold gpaUpdateOkV2
            rw [hgf]
            simpa using hcond
    refine ⟨⟨?_, ?_⟩, ?_, ?_⟩
    · intro hOk
      obtain ⟨s', hs'⟩ := exceptOk_exists hOk
      exact ⟨(hget s' hs').1, (hget s' hs').2.1⟩
    · rintro ⟨hix, hg⟩
      unfold updateV2
      cases hgf : getField body "gpa" with
      | none =>
        simp only [h1, h2, h3, hix, hgf]
        rfl
      | some w =>
        have hcond : (jsIsNaN w.toNumber || !isValidGpa w.toNumber) = false := by
          unfold gpaUpdateOkV2 at hg
          rw [hgf] at hg
          simpa using hg
        simp only [h1, h2, h3, hix, hgf, hcond, Bool.false_eq_true, if_false]
        rfl
    · intro u1 u2 v s' hbody hnone hok
      have hgpresent : (getField body "gpa").isSome = true := by
        rw [hbody]; exact getField_append_self u1 u2 "gpa" v
      obtain ⟨w, hw⟩ := Option.isSome_iff_exists.mp hgpresent
      have hs' := ((hget s' hok).2.2.2) w hw
      subst hbody
      rw [hs']
      have hcg : coerceGpaPayload (u1 ++ ("gpa", v) :: u2)
          = coerceGpaPayload u1 ++ ("gpa", v.toNumber) :: coerceGpaPayload u2 := by
        unfold coerceGpaPayload
        rw [List.map_append]
        rfl
      rw [hcg, applyUpdates2_append]
      have hstep : applyUpdates2 (applyUpdates2 s (coerceGpaPayload u1))
            (("gpa", v.toNumber) :: coerceGpaPayload u2)
          = applyUpdates2
              (setField2 (applyUpdates2 s (coerceGpaPayload u1)) "gpa" v.toNumber)
              (coerceGpaPayload u2) := rfl
      rw [hstep]
      have hnone2 : getField (coerceGpaPayload u2) "gpa" = none := by
        rw [getField_coerceGpaPayload_gpa, hnone]
        rfl
      rw [applyUpdates2_gpa_of_none _ _ hnone2]
      rfl
    · intro u1 u2 v s' hbody hnone hok
      cases hgf : getField body "gpa" with
      | none =>
        have hs' := ((hget s' hok).2.2.1) hgf
        subst hbody
        rw [hs', applyUpdates2_append]
        have hstep : applyUpdates2 (applyUpdates2 s u1) (("age", v) :: u2)
            = applyUpdates2 (setField2 (applyUpdates2 s u1) "age" v) u2 := rfl
        rw [hstep, applyUpdates2_age_of_none _ _ hnone]
        rfl
      | some w =>
        have hs' := ((hget s' hok).2.2.2) w hgf
        subst hbody
        rw [hs']
        have hcg : coerceGpaPayload (u1 ++ ("age", v) :: u2)
            = coerceGpaPayload u1 ++ ("age", v) :: coerceGpaPayload u2 := by
          unfold coerceGpaPayload
          rw [List.map_append]
          rfl
        rw [hcg, applyUpdates2_append]
        have hstep : applyUpdates2 (applyUpdates2 s (coerceGpaPayload u1))
              (("age", v) :: coerceGpaPayload u2)
            = applyUpdates2
                (setField2 (applyUpdates2 s (coerceGpaPayload u1)) "age" v)
                (coerceGpaPayload u2) := rfl
        rw [hstep]
        have hnone2 : getField (coerceGpaPayload u2) "age" = none := by
          rw [getField_coerceGpaPayload _ "age" (by decide), hnone]
        rw [applyUpdates2_age_of_none _ _ hnone2]
        rfl
  · intro k v t hk
    unfold setField2
    simp [allowedFields] at hk
    split_ifs <;> simp_all

/-- Witness for C3: updating seed record 101 with
`{age: 30, hobby: "chess", gpa: "3.9"}` succeeds (only the gpa and name
checks run), the stored gpa is `Number("3.9") = 3.9`, and the unknown key
`hobby` is ignored by the assignment. -/
theorem update_validation_amended_witness :
    (updateIdx seedStudentsI "101"
        [("age", JSValue.num 30), ("hobby", JSValue.str "chess"),
         ("gpa", JSValue.str "3.9")]).2.isOk = true ∧
    StudentI.gpa ⟨.num 101, .str "Alice Smith", .str "Computer Science", .num 30,
        .num (mkRat 39 10), .str "alice@example.com", .str "2023-09-01"⟩
      = JSValue.toNumber (.str "3.9") ∧
    setFieldI ⟨.num 101, .str "Alice Smith", .str "Computer Science", .num 20,
        .num (mkRat 19 5), .str "alice@example.com", .str "2023-09-01"⟩
        "hobby" (JSValue.str "chess")
      = ⟨.num 101, .str "Alice Smith", .str "Computer Science", .num 20,
        .num (mkRat 19 5), .str "alice@example.com", .str "2023-09-01"⟩ := by
  have h := update_validation_amended
  refine ⟨?_, ?_, ?_⟩
  · exact ((h.1 seedStudentsI "101"
      [("age", JSValue.num 30), ("hobby", JSValue.str "chess"),
       ("gpa", JSValue.str "3.9")] 0
      ⟨.num 101, .str "Alice Smith", .str "Computer Science", .num 20,
        .num (mkRat 19 5), .str "alice@example.com", .str "2023-09-01"⟩
      rfl rfl).1).mpr ⟨rfl, rfl⟩
  · exact (h.1 seedStudentsI "101"
      [("age", JSValue.num 30), ("hobby", JSValue.str "chess"),
       ("gpa", JSValue.str "3.9")] 0
      ⟨.num 101, .str "Alice Smith", .str "Computer Science", .num 20,
        .num (mkRat 19 5), .str "alice@example.com", .str "2023-09-01"⟩
      rfl rfl).2.1
      [("age", JSValue.num 30), ("hobby", JSValue.str "chess")] []
      (JSValue.str "3.9")
      ⟨.num 101, .str "Alice Smith", .str "Computer Science", .num 30,
        .num (mkRat 39 10), .str "alice@example.com", .str "2023-09-01"⟩
      rfl rfl rfl
  · exact h.2.1 "hobby" (JSValue.str "chess")
      ⟨.num 101, .str "Alice Smith", .str "Computer Science", .num 20,
        .num (mkRat 19 5), .str "alice@example.com", .str "2023-09-01"⟩
      (by decide)

/-- Keeping the non-matches of a list drops exactly the matches. -/
theorem length_filter_not_add_countP {α : Type} (p : α → Bool) (l : List α) :
    (l.filter (fun a => !p a)).length + l.countP p = l.length := by
  induction l with
  | nil => rfl
  | cons a t ih =>
    by_cases h : p a = true
    · simp [List.filter_cons, List.countP_cons, h]
      omega
    · have hf : p a = false := by simpa using h
      simp [List.filter_cons, List.countP_cons, hf]
      omega

/-- C6 (amended): in the `index.js` variant, deleting a present id keeps
exactly the non-matching records (one fewer when ids are unique), answers
a success carrying no record body, and a subsequent `getById` for the
same id misses; a missing id answers NotFound with the store unchanged.
In the second variant, deleting a present id removes exactly the found
position and returns the deleted record; a missing id answers NotFound. -/
theorem delete_semantics_amended :
    (∀ (store : List StudentI) (idStr : String) (n : ℤ),
      jsParseInt idStr = some n →
      ((∀ s ∈ store, s.id.strictEq (.num n) = false) →
        deleteIdx store idStr = (store, .error .notFound)) ∧
      (store.countP (fun s => s.id.strictEq (.num n)) = 1 →
        (deleteIdx store idStr).2 = .ok none ∧
        (deleteIdx store idStr).1.length + 1 = store.length ∧
        (∀ s ∈ store, s.id.strictEq (.num n) = false →
          s ∈ (deleteIdx store idStr).1) ∧
        getByIdIdx (deleteIdx store idStr).1 idStr = .error .notFound)) ∧
    (∀ (store : List Student2) (idStr : String) (n : ℤ),
      jsParseInt idStr = some n →
      (store.findIdx? (fun t => t.id.strictEq (.num n)) = none →
        deleteV2 store idStr = (store, .error .notFound)) ∧
      (∀ (i : ℕ) (s : Student2),
        store.findIdx? (fun t => t.id.strictEq (.num n)) = some i →
        store[i]? = some s →
        deleteV2 store idStr = (store.eraseIdx i, .ok (some s)) ∧
        (store.eraseIdx i).length + 1 = store.length)) := by
  constructor
  · intro store idStr n hn
    have htarget : idTarget idStr = .num n := by
      unfold idTarget
      rw [hn]
    constructor
    · intro hno
      have hfil : store.filter (fun s => !s.id.strictEq (idTarget idStr)) = store := by
        rw [htarget]
        exact List.filter_eq_self.mpr (fun s hs => by simp [hno s hs])
      unfold deleteIdx
      rw [hfil, if_pos rfl]
    · intro hcount
      have hlen : (store.filter (fun s => !s.id.strictEq (idTarget idStr))).length + 1
          = store.length := by
        rw [htarget]
        have := length_filter_not_add_countP
          (fun s : StudentI => s.id.strictEq (.num n)) store
        omega
      have hneq : (store.filter (fun s => !s.id.strictEq (idTarget idStr))).length
          ≠ store.length := by omega
      have hred : deleteIdx store idStr
          = (store.filter (fun s => !s.id.strictEq (idTarget idStr)), .ok none) := by
        unfold deleteIdx
        rw [if_neg hneq]
      refine ⟨by rw [hred], by rw [hred]; exact hlen, ?_, ?_⟩
      · intro s hs hsno
        rw [hred]
        exact List.mem_filter.mpr ⟨hs, by simp [htarget, hsno]⟩
      · rw [hred]
        unfold getByIdIdx
        have hfind : (store.filter
            (fun s => !s.id.strictEq (idTarget idStr))).find?
              (fun s => s.id.strictEq (idTarget idStr)) = none := by
          rw [List.find?_eq_none]
          intro x hx
          have := (List.mem_filter.mp hx).2
          simp only [Bool.not_eq_true'] at this
          simp [this]
        rw [hfind]
  · intro store idStr n hn
    constructor
    · intro hfind
      unfold deleteV2
      simp only [hn, hfind]
    · intro i s hfind hget
      have hlt : i < store.length := by
        have := List.getElem?_eq_some.mp hget
        exact this.1
      refine ⟨?_, ?_⟩
      · unfold deleteV2
        simp only [hn, hfind, hget]
      · rw [List.length_eraseIdx_of_lt hlt]
        omega

/-- Witness for C6: deleting id 104 removes exactly one seed record, the
`index.js` response carries no record while the second variant returns
the deleted record, and a subsequent lookup of 104 misses. -/
theorem delete_semantics_amended_witness :
    (deleteIdx seedStudentsI "104").2 = Except.ok none ∧
    (deleteIdx seedStudentsI "104").1.length + 1 = seedStudentsI.length ∧
    getByIdIdx (deleteIdx seedStudentsI "104").1 "104" = Except.error Err.notFound ∧
    deleteV2 seedStudents2 "104"
      = (seedStudents2.eraseIdx 3,
         Except.ok (some ⟨.num 104, .str "UG1004", .str "Dana Scully", .str "Biology",
           .num 22, .num (mkRat 79 20), .str "dana@example.com", .str "2021-09-01"⟩)) := by
  have h1 := (delete_semantics_amended.1 seedStudentsI "104" 104 rfl).2 (by decide)
  have h2 := (delete_semantics_amended.2 seedStudents2 "104" 104 rfl).2 3
    ⟨.num 104, .str "UG1004", .str "Dana Scully", .str "Biology",
      .num 22, .num (mkRat 79 20), .str "dana@example.com", .str "2021-09-01"⟩ rfl rfl
  exact ⟨h1.1, h1.2.1, h1.2.2.2, h2.1⟩

/-- Slicing with both bounds clamped to the length equals
drop-then-take. -/
theorem take_min_drop_min {α : Type} (results : List α) (a l : ℕ) :
    (results.take (min (a + l) results.length)).drop (min a results.length)
      = (results.drop a).take l := by
  rcases le_or_lt a results.length with h | h
  · rw [min_eq_left h]
    have ht : results.take (min (a + l) results.length) = results.take (a + l) :=
      List.take_eq_take.mpr (by omega)
    rw [ht, ← List.take_drop]
  · rw [min_eq_right (le_of_lt h)]
    have h1 : (results.take (min (a + l) results.length)).drop results.length = [] :=
      List.drop_eq_nil_of_le (by rw [List.length_take]; omega)
    have h2 : results.drop a = [] := List.drop_eq_nil_of_le (by omega)
    rw [h1, h2, List.take_nil]

/-- `slice(start, start + L)` with non-negative bounds is the window of
length `L` starting at `start`. -/
theorem jsSlice_nonneg {α : Type} (results : List α) (a L : ℤ)
    (ha : 0 ≤ a) (hL : 0 ≤ L) :
    jsSlice results (some a) (some (a + L))
      = (results.drop a.toNat).take L.toNat := by
  unfold jsSlice
  simp only []
  rw [if_neg (show ¬(a + L < 0) by omega), if_neg (show ¬(a < 0) by omega)]
  have e1 : (min (a + L) (results.length : ℤ)).toNat
      = min (a.toNat + L.toNat) results.length := by omega
  have e2 : (min a (results.length : ℤ)).toNat = min a.toNat results.length := by omega
  rw [e1, e2]
  exact take_min_drop_min results a.toNat L.toNat

/-- When both query values parse, the pagination stage clamps them to 1
and slices the corresponding window. -/
theorem paginateStage_eq_of_parse {α : Type} (results : List α)
    (limit page : Option String) (l0 p0 : ℤ)
    (hl : jsParseInt (strOrDefault limit "10") = some l0)
    (hp : jsParseInt (strOrDefault page "1") = some p0) :
    paginateStage results limit page
      = { total := results.length
          page := some (max 1 p0)
          limit := some (max 1 l0)
          data := jsSlice results (some ((max 1 p0 - 1) * max 1 l0))
                    (some ((max 1 p0 - 1) * max 1 l0 + max 1 l0)) } := by
  unfold paginateStage
  rw [hl, hp]
  rfl

/-- C7 (amended): the pagination stage always reports `total` as the
pre-pagination count; a missing (or empty) `limit` or `page` defaults to
10 and 1; values whose `parseInt` succeeds are clamped to a minimum of 1
and select the window `[(page-1)*limit, (page-1)*limit + limit)` over the
post-sort sequence, an out-of-range page giving an empty data array; but
a non-numeric (unparseable) `limit` or `page` does NOT fall back to the
defaults: `Math.max(1, NaN)` is `NaN`, the slice bounds collapse to zero,
and the data array is empty (with the `NaN` reported in the response). -/
theorem pagination_amended :
    ∀ (α : Type) (results : List α) (limit page : Option String),
      (paginateStage results limit page).total = results.length ∧
      (limit = none → (paginateStage results limit page).limit = some 10) ∧
      (page = none → (paginateStage results limit page).page = some 1) ∧
      (∀ l0 p0 : ℤ, jsParseInt (strOrDefault limit "10") = some l0 →
        jsParseInt (strOrDefault page "1") = some p0 →
        (paginateStage results limit page).limit = some (max 1 l0) ∧
        (paginateStage results limit page).page = some (max 1 p0) ∧
        (paginateStage results limit page).data
          = (results.drop ((max 1 p0 - 1) * max 1 l0).toNat).take (max 1 l0).toNat ∧
        ((results.length : ℤ) ≤ (max 1 p0 - 1) * max 1 l0 →
          (paginateStage results limit page).data = [])) ∧
      ((jsParseInt (strOrDefault limit "10") = none ∨
        jsParseInt (strOrDefault page "1") = none) →
        (paginateStage results limit page).data = []) := by
  intro α results limit page
  refine ⟨rfl, ?_, ?_, ?_, ?_⟩
  · intro h
    subst h
    rfl
  · intro h
    subst h
    unfold paginateStage
    cases hl : jsParseInt (strOrDefault limit "10") <;> rfl
  · intro l0 p0 hl hp
    have hL : (1 : ℤ) ≤ max 1 l0 := le_max_left _ _
    have hP : (1 : ℤ) ≤ max 1 p0 := le_max_left _ _
    have hstart : (0 : ℤ) ≤ (max 1 p0 - 1) * max 1 l0 :=
      mul_nonneg (by omega) (by omega)
    have hwin : (paginateStage results limit page).data
        = (results.drop ((max 1 p0 - 1) * max 1 l0).toNat).take (max 1 l0).toNat := by
      rw [paginateStage_eq_of_parse results limit page l0 p0 hl hp]
      exact jsSlice_nonneg results _ _ hstart (by omega)
    refine ⟨?_, ?_, hwin, ?_⟩
    · rw [paginateStage_eq_of_parse results limit page l0 p0 hl hp]
    · rw [paginateStage_eq_of_parse results limit page l0 p0 hl hp]
    · intro hoor
      rw [hwin, List.drop_eq_nil_of_le (by omega), List.take_nil]
  · intro h
    unfold paginateStage
    rcases h with h | h
    · rw [h]
      cases hp : jsParseInt (strOrDefault page "1") <;> rfl
    · rw [h]
      cases hl : jsParseInt (strOrDefault limit "10") <;> rfl

/-- Witness for C7: over the five seed records, `limit=2, page=2` yields
the window at zero-based offsets `[2, 3]`, and `page=10` yields an empty
data array while `total` still reports all five. -/
theorem pagination_amended_witness :
    (paginateStage seedStudentsI (some "2") (some "2")).data
      = (seedStudentsI.drop 2).take 2 ∧
    (paginateStage seedStudentsI (some "2") (some "2")).total = 5 ∧
    (paginateStage seedStudentsI (some "2") (some "10")).data = [] ∧
    (paginateStage seedStudentsI (some "2") (some "10")).total = 5 := by
  have h1 := pagination_amended StudentI seedStudentsI (some "2") (some "2")
  have h2 := pagination_amended StudentI seedStudentsI (some "2") (some "10")
  refine ⟨?_, ?_, ?_, ?_⟩
  · have hw := (h1.2.2.2.1 2 2 rfl rfl).2.2.1
    norm_num at hw
    exact hw
  · rw [h1.1]
    rfl
  · have hw := (h2.2.2.2.1 2 10 rfl rfl).2.2.2
    exact hw (by norm_num [seedStudentsI])
  · rw [h2.1]
    rfl
